import Mathlib

/-!
Verification of the policy-optimization engine of the `admin` repository
(`h_pulse_mirage` / `mirage-backend-full`): generalized advantage
estimation, the PPO policy network's probability head, the character
environment's transition and outcome rules, the agent cache, and the
model save/load checkpoint format.  All numeric state is embedded over
`ℚ` (exact arithmetic) except the neural network, which is embedded over
`ℝ` because it uses `tanh` and `exp`.  Randomness (Python's
`random.random()` / `random.uniform`) is made explicit as rational draw
parameters.
-/

namespace HPulse

/-! ## Generalized advantage estimation
`PPOAgent.compute_returns_and_advantages` in
`app/core/ppo_agent.py`.  The Python loop runs `t` from `len(rewards)-1`
down to `0`, carrying a running `gae` and building `returns` /
`advantages` by inserting at the front.  The Python resolves a falsy
`gamma` argument to the agent default before the loop; callers here pass
the effective value.  Note the source computes a local `next_return`
(bootstrap at the last index, `returns[0]` otherwise) but never uses it:
`delta` reads the `next_value` parameter at every index, and the
non-terminal factor reads `dones[-1]` at the last index and `dones[t+1]`
elsewhere. -/

/-- One backward subloop: `raAux … k` is the `(gae, returns, advantages)`
state after the Python loop has processed the last `k` indices, i.e.
indices `n-k … n-1`. -/
def raAux (rw vl : List ℚ) (nv : ℚ) (dn : List Bool) (g l : ℚ) (n : ℕ) :
    ℕ → ℚ × List ℚ × List ℚ
  | 0 => (0, [], [])
  | k + 1 =>
    let s := raAux rw vl nv dn g l n k
    let gae := s.1
    let rets := s.2.1
    let advs := s.2.2
    let t := n - (k + 1)
    let nnt : ℚ :=
      if t = n - 1 then (if dn.getLastD false then 0 else 1)
      else (if dn.getD (t + 1) false then 0 else 1)
    let delta := rw.getD t 0 + g * nv * nnt - vl.getD t 0
    let gae' := delta + g * l * nnt * gae
    (gae', (gae' + vl.getD t 0) :: rets, gae' :: advs)

/-- `PPOAgent.compute_returns_and_advantages(rewards, values, next_value,
dones, gamma, gae_lambda)`, returning `(returns, advantages)`. -/
def computeReturnsAndAdvantages (rewards values : List ℚ) (next_value : ℚ)
    (dones : List Bool) (gamma lam : ℚ) : List ℚ × List ℚ :=
  let s := raAux rewards values next_value dones gamma lam
    rewards.length rewards.length
  (s.2.1, s.2.2)

/-- Modelled from the spec: the section 4.5 backward recursion, in which
`next_value` is the bootstrap value only at the last index and
`values[t+1]` at every earlier index, and the non-terminal factor comes
from `dones[t]`.  Second definition for comparison with
`computeReturnsAndAdvantages`. -/
def specGaeAux (rw vl : List ℚ) (bootstrap : ℚ) (dn : List Bool) (g l : ℚ)
    (n : ℕ) : ℕ → ℚ × List ℚ × List ℚ
  | 0 => (0, [], [])
  | k + 1 =>
    let s := specGaeAux rw vl bootstrap dn g l n k
    let gae := s.1
    let rets := s.2.1
    let advs := s.2.2
    let t := n - (k + 1)
    let nv : ℚ := if t = n - 1 then bootstrap else vl.getD (t + 1) 0
    let nnt : ℚ := if dn.getD t false then 0 else 1
    let delta := rw.getD t 0 + g * nv * nnt - vl.getD t 0
    let gae' := delta + g * l * nnt * gae
    (gae', (gae' + vl.getD t 0) :: rets, gae' :: advs)

/-- The spec's `AdvantageEstimator.compute`. -/
def specCompute (rewards values : List ℚ) (bootstrap : ℚ) (dones : List Bool)
    (gamma lam : ℚ) : List ℚ × List ℚ :=
  let s := specGaeAux rewards values bootstrap dones gamma lam
    rewards.length rewards.length
  (s.2.1, s.2.2)

/-! ## CharacterEnvironment (`app/core/ppo_agent.py`)
The default 10-action space, the personality-weighted success
probability of `_calculate_outcome`, the state update of
`_update_state`, and `step`/`reset`.  Outcome strings are modelled by
the substring flags `_update_state` tests for: each Python outcome
string is replaced by the record of which of the tested substrings
(失败 shibai, 错失 cuoshi, 损失 sunshi, 成功 chenggong, 获胜 huosheng,
回报 huibao, 拒绝 jujue, 反击 fanji, 冲突 chongtu, 危险 weixian) it
contains. -/

/-- The ten actions of the default `action_space`, in list order:
合作 cooperate, 竞争 compete, 冒险 risk, 保守 conservative, 说服
persuade, 威胁 threaten, 逃避 evade, 对抗 confront, 礼让 yield, 强硬
tough. -/
inductive Action
  | hezuo | jingzheng | maoxian | baoshou | shuofu
  | weixie | taobi | duikang | lirang | qiangying
  deriving DecidableEq, Repr

/-- The profile fields the environment reads (`character.get(...)`),
with the Python defaults used when a key is missing. -/
structure CharacterProfile where
  O : ℚ := 1/2
  C : ℚ := 1/2
  E : ℚ := 1/2
  A : ℚ := 1/2
  N : ℚ := 1/2
  wealth : ℚ := 1/2
  reputation : ℚ := 1/2
  trust : ℚ := 1/2
  emoJoy : ℚ := 1/4
  emoAnger : ℚ := 1/4
  emoSadness : ℚ := 1/4
  emoFear : ℚ := 1/4
  deriving DecidableEq, Repr

structure Emotions where
  joy : ℚ
  anger : ℚ
  sadness : ℚ
  fear : ℚ
  deriving DecidableEq, Repr

structure EnvPressure where
  threat_level : ℚ
  opportunity : ℚ
  social_pressure : ℚ
  time_pressure : ℚ
  deriving DecidableEq, Repr

structure HistoryEntry where
  step : ℕ
  action : Action
  success : Bool
  reward : ℚ
  deriving DecidableEq, Repr

structure EnvState where
  health : ℚ
  energy : ℚ
  wealth : ℚ
  reputation : ℚ
  happiness : ℚ
  stress : ℚ
  trust : ℚ
  emotions : Emotions
  environment : EnvPressure
  history : List HistoryEntry
  deriving DecidableEq, Repr

/-- Which of the substrings tested by `_update_state` occur in the
outcome string `_calculate_outcome` produces for each action/success
pair. -/
structure OutcomeFlags where
  shibai : Bool := false
  cuoshi : Bool := false
  sunshi : Bool := false
  chenggong : Bool := false
  huosheng : Bool := false
  huibao : Bool := false
  jujue : Bool := false
  fanji : Bool := false
  chongtu : Bool := false
  weixian : Bool := false
  deriving DecidableEq, Repr

/-- Substring content of each outcome string, e.g. 合作 success is
"成功建立了合作关系" (contains 成功), 逃避 success is "成功避开危险"
(contains both 成功 and 危险), 强硬 failure is "强硬引发冲突"
(contains 冲突). -/
def outcomeFlags : Action → Bool → OutcomeFlags
  | .hezuo, true => { chenggong := true }
  | .hezuo, false => { jujue := true }
  | .jingzheng, true => { huosheng := true }
  | .jingzheng, false => { shibai := true }
  | .maoxian, true => { huibao := true }
  | .maoxian, false => { shibai := true, sunshi := true }
  | .baoshou, true => {}
  | .baoshou, false => { cuoshi := true }
  | .shuofu, true => { chenggong := true }
  | .shuofu, false => { shibai := true }
  | .weixie, true => {}
  | .weixie, false => { shibai := true }
  | .taobi, true => { chenggong := true, weixian := true }
  | .taobi, false => {}
  | .duikang, true => { chenggong := true }
  | .duikang, false => { shibai := true, fanji := true }
  | .lirang, _ => {}
  | .qiangying, true => {}
  | .qiangying, false => { chongtu := true }

/-- `"失败" in outcome or "错失" in outcome or "损失" in outcome`. -/
def OutcomeFlags.failish (f : OutcomeFlags) : Bool :=
  f.shibai || f.cuoshi || f.sunshi

/-- `"成功" in outcome or "获胜" in outcome or "回报" in outcome`. -/
def OutcomeFlags.successish (f : OutcomeFlags) : Bool :=
  f.chenggong || f.huosheng || f.huibao

/-- The per-action `success_prob` adjustments of `_calculate_outcome`
(everything added to the 0.5 baseline before clamping). -/
def successAdjust (c : CharacterProfile) (threat opportunity : ℚ) :
    Action → ℚ
  | .hezuo => 1/5 * c.A - 1/10 * c.N +
      (if opportunity > 1/2 then 1/10 else -(1/10))
  | .jingzheng => 1/5 * c.C - 1/10 * c.A -
      (if threat > 1/2 then 1/10 else 0)
  | .maoxian => 3/10 * c.O - 1/5 * c.C +
      (if opportunity > 7/10 then 1/5 else -(1/10))
  | .baoshou => 1/5 * c.C - 1/10 * c.O +
      (if threat > 1/2 then 1/10 else -(1/10))
  | .shuofu => 3/10 * c.E + 1/10 * c.A
  | .weixie => 1/5 * (1 - c.A) - 1/10 * c.E
  | .taobi => 3/10 * c.N - 1/10 * c.C +
      (if threat > 7/10 then 1/5 else 0)
  | .duikang => 1/5 * (1 - c.A) + 1/10 * c.C
  | .lirang => 3/10 * c.A
  | .qiangying => 1/5 * (1 - c.A) + 1/10 * c.N

/-- `success_prob` of `_calculate_outcome`: baseline 0.5, per-action
adjustment, then `max(0.1, min(0.9, ...))`. -/
def successProb (c : CharacterProfile) (threat opportunity : ℚ)
    (a : Action) : ℚ :=
  max (1/10) (min (9/10) (1/2 + successAdjust c threat opportunity a))

/-- The fixed base reward per action and outcome polarity. -/
def baseReward : Action → Bool → ℚ
  | .hezuo, true => 3/2
  | .hezuo, false => -(1/2)
  | .jingzheng, true => 2
  | .jingzheng, false => -1
  | .maoxian, true => 5/2
  | .maoxian, false => -2
  | .baoshou, true => 1/2
  | .baoshou, false => -(1/2)
  | .shuofu, true => 1
  | .shuofu, false => -(1/2)
  | .weixie, true => 1
  | .weixie, false => -(3/2)
  | .taobi, true => 1/2
  | .taobi, false => -1
  | .duikang, true => 3/2
  | .duikang, false => -(3/2)
  | .lirang, true => 1/2
  | .lirang, false => -(1/2)
  | .qiangying, true => 1
  | .qiangying, false => -1

/-- The trait-based reward adjustment at the end of
`_calculate_outcome`. -/
def rewardAdjust (c : CharacterProfile) : Action → ℚ
  | .maoxian => (c.O - 1/2) * (1/2)
  | .hezuo => (c.A - 1/2) * (1/2)
  | .lirang => (c.A - 1/2) * (1/2)
  | .jingzheng => (1 - c.A - 1/2) * (1/2)
  | .qiangying => (1 - c.A - 1/2) * (1/2)
  | _ => 0

/-- `_calculate_outcome`: the stochastic draw `random.random()` is the
explicit parameter `draw`; success iff `draw < success_prob`. -/
def calculateOutcome (c : CharacterProfile) (env : EnvPressure)
    (a : Action) (draw : ℚ) : Bool × ℚ :=
  let success : Bool :=
    decide (draw < successProb c env.threat_level env.opportunity a)
  (success, baseReward a success + rewardAdjust c a)

/-- The random draws one `step` consumes: the success draw and the
three `random.uniform(-0.1, 0.1)` pressure increments. -/
structure StepRand where
  successDraw : ℚ
  dThreat : ℚ
  dOpportunity : ℚ
  dSocial : ℚ

def clamp01 (x : ℚ) : ℚ := max 0 (min 1 x)

/-- `_update_state`, in the source's statement order. -/
def updateState (a : Action) (success : Bool) (r : StepRand)
    (s : EnvState) : EnvState :=
  let f := outcomeFlags a success
  let s := if f.failish then
      { s with energy := max (1/10) (s.energy - 1/10),
               happiness := max (1/10) (s.happiness - 1/10),
               stress := min 1 (s.stress + 1/10) } else s
  let s := if f.successish then
      { s with happiness := min 1 (s.happiness + 1/10),
               reputation := min 1 (s.reputation + 1/20),
               stress := max 0 (s.stress - 1/20) } else s
  let s := if a = Action.hezuo ∧ f.chenggong then
      { s with trust := min 1 (s.trust + 1/10),
               reputation := min 1 (s.reputation + 1/10) } else s
  let s := if a = Action.maoxian ∧ f.huibao then
      { s with wealth := min 1 (s.wealth + 1/5) }
    else if a = Action.maoxian ∧ f.sunshi then
      { s with wealth := max 0 (s.wealth - 3/20) } else s
  let s := if f.fanji || f.chongtu then
      { s with health := max (1/10) (s.health - 1/10) } else s
  let e := s.emotions
  let e := if f.successish then
      { e with joy := min 1 (e.joy + 1/10),
               fear := max 0 (e.fear - 1/20) } else e
  let e := if f.shibai || f.jujue then
      { e with sadness := min 1 (e.sadness + 1/10),
               joy := max 0 (e.joy - 1/20) } else e
  let e := if f.chongtu || f.fanji then
      { e with anger := min 1 (e.anger + 3/20) } else e
  let e := if f.weixian then
      { e with fear := min 1 (e.fear + 3/20) } else e
  let env := s.environment
  let env := { env with
      threat_level := clamp01 (env.threat_level + r.dThreat),
      opportunity := clamp01 (env.opportunity + r.dOpportunity),
      social_pressure := clamp01 (env.social_pressure + r.dSocial),
      time_pressure := min 1 (env.time_pressure + 1/20) }
  { s with emotions := e, environment := env }

/-- `reset`'s initial `self.state` dictionary. -/
def initState (c : CharacterProfile) : EnvState where
  health := 1
  energy := 1
  wealth := c.wealth
  reputation := c.reputation
  happiness := 1/2
  stress := 1/10
  trust := c.trust
  emotions := ⟨c.emoJoy, c.emoAnger, c.emoSadness, c.emoFear⟩
  environment := ⟨1/10, 3/10, 1/5, 1/10⟩
  history := []

inductive StepError
  | indexError
  deriving DecidableEq, Repr

structure Env where
  character : CharacterProfile
  max_steps : ℕ
  current_step : ℕ
  state : EnvState

def actionSpace : List Action :=
  [.hezuo, .jingzheng, .maoxian, .baoshou, .shuofu,
   .weixie, .taobi, .duikang, .lirang, .qiangying]

/-- Python list indexing semantics: an index `i` with
`-len ≤ i < len` is accepted, negative values counting from the end;
anything else raises `IndexError`. -/
def pyIndex (l : List Action) (i : ℤ) : Option Action :=
  let j : ℤ := if i < 0 then (l.length : ℤ) + i else i
  if 0 ≤ j ∧ j < (l.length : ℤ) then l.get? j.toNat else none

/-- The body of `step` once the action index has been resolved:
increment the step counter, compute outcome and reward from the
pre-update pressures, update the state, append the history entry, and
test termination (`current_step >= max_steps or health <= 0`). -/
def Env.stepA (e : Env) (a : Action) (r : StepRand) : Env × ℚ × Bool :=
  let stepN := e.current_step + 1
  let res := calculateOutcome e.character e.state.environment a r.successDraw
  let s := updateState a res.1 r e.state
  let s := { s with history := s.history ++ [⟨stepN, a, res.1, res.2⟩] }
  let done : Bool := decide (stepN ≥ e.max_steps) || decide (s.health ≤ 0)
  ({ e with current_step := stepN, state := s }, res.2, done)

/-- `CharacterEnvironment.step(action_idx)`: the very first statement
`self.action_space[action_idx]` raises `IndexError` before any state
is touched when the index is illegal. -/
def Env.step (e : Env) (i : ℤ) (r : StepRand) :
    Except StepError (Env × ℚ × Bool) :=
  match pyIndex actionSpace i with
  | none => .error .indexError
  | some a => .ok (e.stepA a r)

/-- `reset`. -/
def Env.reset (e : Env) : Env :=
  { e with current_step := 0, state := initState e.character }

/-- `CharacterEnvironment.__init__` (which itself calls `reset`). -/
def mkEnv (c : CharacterProfile) (max_steps : ℕ) : Env :=
  { character := c, max_steps := max_steps, current_step := 0,
    state := initState c }

/-- Run a sequence of in-range steps (the trajectory a rollout
produces), discarding rewards and done flags. -/
def Env.runSteps (e : Env) : List (Action × StepRand) → Env
  | [] => e
  | p :: rest => ((e.stepA p.1 p.2).1).runSteps rest

/-! ## The gym variants: `MirageEnv` (`app/ai/environment.py`) and
`PvPArenaEnv` (`app/pvp_arena/pvp_env.py`), with `build_state` /
`compute_reward` from `app/ai/utils.py`. -/

/-- The profile fields `build_state` and the variant environments read
(with the Python `get` defaults). -/
structure MirageProfile where
  O : ℚ := 1/2
  C : ℚ := 1/2
  E : ℚ := 1/2
  A : ℚ := 1/2
  N : ℚ := 1/2
  wuxingJin : ℚ := 1/5
  wuxingMu : ℚ := 1/5
  wuxingShui : ℚ := 1/5
  wuxingHuo : ℚ := 1/5
  wuxingTu : ℚ := 1/5
  emoJoy : ℚ := 1/4
  emoAnger : ℚ := 1/4
  emoSadness : ℚ := 1/4
  emoFear : ℚ := 1/4
  reputation : ℚ := 1/2
  trust : ℚ := 1/2
  wealth : ℚ := 1/2
  status : ℚ := 1/2
  deriving DecidableEq, Repr

/-- `build_state`: personality (5) + five elements (5) + emotions (4)
+ social variables (4), an 18-vector. -/
def buildState (p : MirageProfile) : List ℚ :=
  [p.O, p.C, p.E, p.A, p.N,
   p.wuxingJin, p.wuxingMu, p.wuxingShui, p.wuxingHuo, p.wuxingTu,
   p.emoJoy, p.emoAnger, p.emoSadness, p.emoFear,
   p.reputation, p.trust, p.wealth, p.status]

/-- `compute_reward(profile, state, action)` (the profile argument is
unused by the source). -/
def computeReward (st : List ℚ) (action : ℕ) : ℚ :=
  if action = 0 then st.getD 10 0 * 2 + st.getD 11 0
  else if action = 1 then 1/2 - st.getD 11 0
  else if action = 2 then st.getD 12 0 - 1/10
  else if action = 3 then -(1/5)
  else if action = 4 then st.getD 13 0 - 3/10
  else if action = 5 then (st.getD 10 0 + st.getD 11 0) * (1/2) - 1/5
  else 0

/-- `MirageEnv._update_profile`: action 1 (欺骗 deceive) lowers trust
and raises anger; action 0 (合作 cooperate) raises trust and
reputation; other actions leave the profile alone.  The updates write
straight into the caller-supplied profile dictionary. -/
def mirageUpdateProfile (action : ℕ) (p : MirageProfile) : MirageProfile :=
  if action = 1 then
    { p with trust := p.trust - 1/10, emoAnger := p.emoAnger + 1/20 }
  else if action = 0 then
    { p with trust := p.trust + 1/20, reputation := p.reputation + 1/20 }
  else p

structure MirageEnv where
  profile : MirageProfile
  max_steps : ℕ
  current_step : ℕ
  state : List ℚ
  done : Bool

def mkMirageEnv (p : MirageProfile) : MirageEnv :=
  { profile := p, max_steps := 100, current_step := 0,
    state := buildState p, done := false }

/-- `MirageEnv.step`: reward from the pre-update state, then
`_update_profile`, then the observation is rebuilt from the (now
mutated) profile. -/
def MirageEnv.step (e : MirageEnv) (action : ℕ) : MirageEnv × ℚ × Bool :=
  let stepN := e.current_step + 1
  let reward := computeReward e.state action
  let p := mirageUpdateProfile action e.profile
  let st := buildState p
  let done := if stepN ≥ e.max_steps then true else e.done
  ({ e with profile := p, current_step := stepN, state := st,
            done := done }, reward, done)

structure PvPArenaEnv where
  profile1 : MirageProfile
  profile2 : MirageProfile
  turn : ℕ
  state1 : List ℚ
  state2 : List ℚ

def mkPvPArenaEnv (p1 p2 : MirageProfile) : PvPArenaEnv :=
  { profile1 := p1, profile2 := p2, turn := 0,
    state1 := buildState p1, state2 := buildState p2 }

/-- `PvPArenaEnv.step`: the acting profile and, for actions 1 (冲突
conflict) and 0 (妥协 compromise), also the *other* profile are
mutated in place; both observations are rebuilt and the turn flips. -/
def PvPArenaEnv.step (e : PvPArenaEnv) (action : ℕ) :
    PvPArenaEnv × ℚ × Bool :=
  let actor := if e.turn = 0 then e.profile1 else e.profile2
  let other := if e.turn = 0 then e.profile2 else e.profile1
  let st := if e.turn = 0 then e.state1 else e.state2
  let reward := computeReward st action
  let actor := if action = 1 then
      { actor with emoAnger := actor.emoAnger + 1/10 }
    else if action = 0 then
      { actor with emoJoy := actor.emoJoy + 1/20 }
    else actor
  let other := if action = 1 then
      { other with emoAnger := other.emoAnger + 1/20 }
    else if action = 0 then
      { other with trust := other.trust + 3/100 }
    else other
  let p1 := if e.turn = 0 then actor else other
  let p2 := if e.turn = 0 then other else actor
  ({ profile1 := p1, profile2 := p2, turn := 1 - e.turn,
     state1 := buildState p1, state2 := buildState p2 }, reward, false)

/-! ## `PPOPolicy` (`app/core/ppo_agent.py`)
Two `Linear`+`Tanh` shared layers feeding a `Linear`+`Softmax` actor
head and a `Linear` critic head, over `ℝ`.  `sd` is `state_dim`, `ad`
is `action_dim`, `hd` is `hidden_dim` (64 at every construction site in
the repository). -/

structure PolicyParams (sd ad hd : ℕ) where
  w1 : Fin hd → Fin sd → ℝ
  b1 : Fin hd → ℝ
  w2 : Fin hd → Fin hd → ℝ
  b2 : Fin hd → ℝ
  wa : Fin ad → Fin hd → ℝ
  ba : Fin ad → ℝ
  wc : Fin hd → ℝ
  bc : ℝ

noncomputable def softmax {n : ℕ} (z : Fin n → ℝ) : Fin n → ℝ :=
  fun i => Real.exp (z i) / ∑ j, Real.exp (z j)

/-- `self.shared_layers`: `Tanh(W2 · Tanh(W1 · x + b1) + b2)`. -/
noncomputable def sharedLayers {sd ad hd : ℕ} (p : PolicyParams sd ad hd)
    (x : Fin sd → ℝ) : Fin hd → ℝ :=
  fun i => Real.tanh
    (∑ j, p.w2 i j * Real.tanh (∑ k, p.w1 j k * x k + p.b1 j) + p.b2 i)

/-- `PPOPolicy.forward`: `(action_probs, state_value)`. -/
noncomputable def PPOPolicy.forward {sd ad hd : ℕ}
    (p : PolicyParams sd ad hd) (x : Fin sd → ℝ) : (Fin ad → ℝ) × ℝ :=
  let feats := sharedLayers p x
  (softmax (fun i => ∑ j, p.wa i j * feats j + p.ba i),
   ∑ j, p.wc j * feats j + p.bc)

/-! ## `PPOAgent` save/load (`app/core/ppo_agent.py`) and the agent
cache (`app/routers/simulation_router.py`). -/

/-- The Adam optimizer state: per-parameter first and second moment
estimates plus the step count. -/
structure AdamState (sd ad hd : ℕ) where
  m : PolicyParams sd ad hd
  v : PolicyParams sd ad hd
  t : ℕ

/-- A `PPOAgent`: policy parameters, optimizer state, dimensions, and
the constructor's hyperparameters. -/
structure PPOAgentM (sd ad hd : ℕ) where
  policy : PolicyParams sd ad hd
  optim : AdamState sd ad hd
  lr : ℚ
  gamma : ℚ
  clip_ratio : ℚ
  max_grad_norm : ℚ
  value_coef : ℚ
  entropy_coef : ℚ

/-- The dictionary `save_model` passes to `torch.save`: exactly the
policy state dict, the optimizer state dict, `state_dim` and
`action_dim`. -/
structure Checkpoint (sd ad hd : ℕ) where
  policy_state_dict : PolicyParams sd ad hd
  optimizer_state_dict : AdamState sd ad hd
  state_dim : ℕ
  action_dim : ℕ

/-- `PPOAgent.save_model`. -/
def saveModel {sd ad hd : ℕ} (a : PPOAgentM sd ad hd) :
    Checkpoint sd ad hd :=
  { policy_state_dict := a.policy, optimizer_state_dict := a.optim,
    state_dim := sd, action_dim := ad }

/-- `PPOAgent.load_model`: construct a fresh agent from the stored
dimensions with the `__init__` default hyperparameters, then load both
state dicts. -/
def loadModel {sd ad hd : ℕ} (c : Checkpoint sd ad hd) :
    PPOAgentM sd ad hd :=
  { policy := c.policy_state_dict, optim := c.optimizer_state_dict,
    lr := 3/10000, gamma := 99/100, clip_ratio := 1/5,
    max_grad_norm := 1/2, value_coef := 1/2, entropy_coef := 1/100 }

/-- `get_agent_for_character`: consult the module-level `AGENT_CACHE`;
on a miss, load a stored checkpoint if one exists, otherwise create a
fresh agent (`fresh` stands for the randomly initialized
`PPOAgent(state_dim, action_dim)`), and insert it into the cache. -/
def getAgentForCharacter {sd ad hd : ℕ}
    (cache : List (ℕ × PPOAgentM sd ad hd)) (cid : ℕ)
    (stored : Option (Checkpoint sd ad hd)) (fresh : PPOAgentM sd ad hd) :
    PPOAgentM sd ad hd × List (ℕ × PPOAgentM sd ad hd) :=
  match cache.lookup cid with
  | some a => (a, cache)
  | none =>
    let a := match stored with
      | some c => loadModel c
      | none => fresh
    (a, (cid, a) :: cache)

/-! ## Helper predicates used by the theorems. -/

/-- Whether a `step` call returned normally (no Python exception). -/
def stepOk (x : Except StepError (Env × ℚ × Bool)) : Bool :=
  match x with
  | .ok _ => true
  | .error _ => false

/-- The `done` flag of a normal `step` result (`false` on error). -/
def stepDone (x : Except StepError (Env × ℚ × Bool)) : Bool :=
  match x with
  | .ok r => r.2.2
  | .error _ => false

/-- The environment a normal `step` result carries (the fallback `d`
on error). -/
def stepEnv (x : Except StepError (Env × ℚ × Bool)) (d : Env) : Env :=
  match x with
  | .ok r => r.1
  | .error _ => d

/-- The four environment pressures of a state all lie in `[0, 1]`. -/
def pressuresInRange (s : EnvState) : Prop :=
  0 ≤ s.environment.threat_level ∧ s.environment.threat_level ≤ 1 ∧
  0 ≤ s.environment.opportunity ∧ s.environment.opportunity ≤ 1 ∧
  0 ≤ s.environment.social_pressure ∧ s.environment.social_pressure ≤ 1 ∧
  0 ≤ s.environment.time_pressure ∧ s.environment.time_pressure ≤ 1

/-! ## Theorems. -/

/-- C1: `compute_returns_and_advantages` does not implement the section
4.5 backward recursion.  On the spec's probe input — rewards `[1,1,1]`,
values `[0,0,0]`, bootstrap `0`, dones `[0,0,1]`, gamma = lambda = 1 —
the code returns returns = advantages = `[2,1,1]`, while the section
4.5 recursion (bootstrap only at the last index, `values[t+1]`
earlier, non-terminal factor from `dones[t]`) gives the claimed
`[3,2,1]`: the source reads the bootstrap `next_value` at every index
(its locally computed `next_return` is never used) and the
non-terminal factor from `dones[t+1]`. -/
theorem gae_code_bug :
    computeReturnsAndAdvantages [1,1,1] [0,0,0] 0 [false,false,true] 1 1
      = ([2,1,1], [2,1,1]) ∧
    specCompute [1,1,1] [0,0,0] 0 [false,false,true] 1 1
      = ([3,2,1], [3,2,1]) := by
  constructor
  · show (raAux [1,1,1] [0,0,0] 0 [false,false,true] 1 1 3 3).2
      = ([2,1,1], [2,1,1])
    norm_num [raAux]
  · show (specGaeAux [1,1,1] [0,0,0] 0 [false,false,true] 1 1 3 3).2
      = ([3,2,1], [3,2,1])
    norm_num [specGaeAux]

theorem softmax_sum_one {n : ℕ} (z : Fin (n+1) → ℝ) :
    ∑ i, softmax z i = 1 := by
  have hS : 0 < ∑ j, Real.exp (z j) :=
    Finset.sum_pos (fun j _ => Real.exp_pos _) ⟨0, Finset.mem_univ 0⟩
  simp only [softmax]
  rw [← Finset.sum_div]
  exact div_self (ne_of_gt hS)

/-- C3: for every state vector and every parameter setting, the action
distribution `PPOPolicy.forward` returns sums to 1 (hence is within
1e-5 of 1) and every component is strictly positive: the actor head
ends in a softmax, whose terms are quotients of positive exponentials
by their positive sum. -/
theorem forward_distribution_simplex {sd hd : ℕ} (n : ℕ)
    (p : PolicyParams sd (n+1) hd) (x : Fin sd → ℝ) :
    |(∑ i, (PPOPolicy.forward p x).1 i) - 1| ≤ 1/100000 ∧
    ∀ i, 0 < (PPOPolicy.forward p x).1 i := by
  have hS : 0 < ∑ j, Real.exp
      ((fun i => ∑ k, p.wa i k * sharedLayers p x k + p.ba i) j) :=
    Finset.sum_pos (fun j _ => Real.exp_pos _) ⟨0, Finset.mem_univ 0⟩
  constructor
  · have h1 : (∑ i, (PPOPolicy.forward p x).1 i) = 1 := by
      simp only [PPOPolicy.forward]
      exact softmax_sum_one _
    rw [h1]
    norm_num
  · intro i
    simp only [PPOPolicy.forward, softmax]
    exact div_pos (Real.exp_pos _) hS

/-- C6: the success probability of `_calculate_outcome` is the 0.5
baseline plus the action-specific weighted personality and pressure
adjustment, clamped into `[0.1, 0.9]`; the value used for the
stochastic draw therefore always lies in `[0.1, 0.9]`, for every
profile and pressure values whatsoever. -/
theorem success_prob_baseline_clamp_bounds (c : CharacterProfile)
    (threat opportunity : ℚ) (a : Action) :
    successProb c threat opportunity a
      = max (1/10) (min (9/10) (1/2 + successAdjust c threat opportunity a)) ∧
    1/10 ≤ successProb c threat opportunity a ∧
    successProb c threat opportunity a ≤ 9/10 := by
  refine ⟨rfl, le_max_left _ _, ?_⟩
  exact max_le (by norm_num) (min_le_left _ _)

/-- C7: `get_agent_for_character` is idempotent: a second call with the
same key (with no intervening save, and whatever the stored checkpoint
or fresh initialization of the second call would be) returns exactly
the agent the first call produced and leaves the cache untouched. -/
theorem get_or_create_idempotent {sd ad hd : ℕ}
    (cache : List (ℕ × PPOAgentM sd ad hd)) (cid : ℕ)
    (stored stored2 : Option (Checkpoint sd ad hd))
    (fresh fresh2 : PPOAgentM sd ad hd) :
    (getAgentForCharacter (getAgentForCharacter cache cid stored fresh).2
        cid stored2 fresh2).1
      = (getAgentForCharacter cache cid stored fresh).1 ∧
    (getAgentForCharacter (getAgentForCharacter cache cid stored fresh).2
        cid stored2 fresh2).2
      = (getAgentForCharacter cache cid stored fresh).2 := by
  cases h : cache.lookup cid with
  | some a => simp [getAgentForCharacter, h]
  | none => simp [getAgentForCharacter, h, List.lookup]

/-- C8: `save_model` writes exactly the policy state dict, the
optimizer state dict, `state_dim` and `action_dim` (the four fields of
`Checkpoint`), and `load_model` of that checkpoint yields an agent
whose forward pass returns the same action distribution (and value) as
the saved agent on every probe state vector. -/
theorem save_load_roundtrip {sd ad hd : ℕ} (a : PPOAgentM sd ad hd)
    (x : Fin sd → ℝ) :
    (saveModel a).policy_state_dict = a.policy ∧
    (saveModel a).optimizer_state_dict = a.optim ∧
    (saveModel a).state_dim = sd ∧ (saveModel a).action_dim = ad ∧
    PPOPolicy.forward (loadModel (saveModel a)).policy x
      = PPOPolicy.forward a.policy x :=
  ⟨rfl, rfl, rfl, rfl, rfl⟩

/-! ### Environment lemmas. -/

theorem updateState_health (a : Action) (success : Bool) (r : StepRand)
    (s : EnvState) :
    (updateState a success r s).health = s.health ∨
    (updateState a success r s).health = max (1/10) (s.health - 1/10) := by
  cases a <;> cases success <;>
    simp [updateState, outcomeFlags, OutcomeFlags.failish,
      OutcomeFlags.successish]

theorem updateState_environment (a : Action) (success : Bool) (r : StepRand)
    (s : EnvState) :
    (updateState a success r s).environment =
      { threat_level := clamp01 (s.environment.threat_level + r.dThreat),
        opportunity := clamp01 (s.environment.opportunity + r.dOpportunity),
        social_pressure := clamp01 (s.environment.social_pressure + r.dSocial),
        time_pressure := min 1 (s.environment.time_pressure + 1/20) } := by
  cases a <;> cases success <;>
    simp [updateState, outcomeFlags, OutcomeFlags.failish,
      OutcomeFlags.successish]

theorem stepA_state_health (e : Env) (a : Action) (r : StepRand) :
    (e.stepA a r).1.state.health
      = (updateState a (calculateOutcome e.character e.state.environment a
          r.successDraw).1 r e.state).health := rfl

theorem stepA_state_environment (e : Env) (a : Action) (r : StepRand) :
    (e.stepA a r).1.state.environment
      = (updateState a (calculateOutcome e.character e.state.environment a
          r.successDraw).1 r e.state).environment := rfl

theorem stepA_current_step (e : Env) (a : Action) (r : StepRand) :
    (e.stepA a r).1.current_step = e.current_step + 1 := rfl

theorem stepA_done (e : Env) (a : Action) (r : StepRand) :
    (e.stepA a r).2.2 = (decide (e.current_step + 1 ≥ e.max_steps)
      || decide ((e.stepA a r).1.state.health ≤ 0)) := rfl

theorem updateState_health_ge (a : Action) (success : Bool) (r : StepRand)
    (s : EnvState) (h : 1/10 ≤ s.health) :
    1/10 ≤ (updateState a success r s).health := by
  rcases updateState_health a success r s with h' | h' <;> rw [h']
  · exact h
  · exact le_max_left _ _

theorem runSteps_health (tr : List (Action × StepRand)) (e : Env)
    (h : 1/10 ≤ e.state.health) :
    1/10 ≤ (e.runSteps tr).state.health := by
  induction tr generalizing e with
  | nil => exact h
  | cons p rest ih =>
    apply ih
    rw [stepA_state_health]
    exact updateState_health_ge _ _ _ _ h

theorem runSteps_character (tr : List (Action × StepRand)) (e : Env) :
    (e.runSteps tr).character = e.character := by
  induction tr generalizing e with
  | nil => rfl
  | cons p rest ih => exact ih _

theorem runSteps_max_steps (tr : List (Action × StepRand)) (e : Env) :
    (e.runSteps tr).max_steps = e.max_steps := by
  induction tr generalizing e with
  | nil => rfl
  | cons p rest ih => exact ih _

theorem clamp01_bounds (x : ℚ) : 0 ≤ clamp01 x ∧ clamp01 x ≤ 1 :=
  ⟨le_max_left _ _, max_le (by norm_num) (min_le_left _ _)⟩

theorem clamp01_move (t d : ℚ) (ht0 : 0 ≤ t) (ht1 : t ≤ 1)
    (hd : |d| ≤ 1/10) : |clamp01 (t + d) - t| ≤ 1/10 := by
  rw [abs_le] at hd ⊢
  unfold clamp01
  constructor
  · have ha : t - 1/10 ≤ min 1 (t + d) := le_min (by linarith) (by linarith)
    have hb : min 1 (t + d) ≤ max 0 (min 1 (t + d)) := le_max_right _ _
    linarith
  · have ha : min 1 (t + d) ≤ t + 1/10 :=
      le_trans (min_le_right _ _) (by linarith)
    have hb : max 0 (min 1 (t + d)) ≤ t + 1/10 := max_le (by linarith) ha
    linarith

/-! ### C2. -/

/-- C2, counterexample: with `max_steps = 1`, the first `step` returns
`done = true`, and a second `step` on the resulting environment — no
intervening reset — returns normally instead of raising an
InvalidState error (`CharacterEnvironment.step` has no state-machine
guard at all). -/
theorem step_after_done_no_error_cex :
    stepDone ((mkEnv {} 1).step 0 ⟨1/2,0,0,0⟩) = true ∧
    stepOk ((stepEnv ((mkEnv {} 1).step 0 ⟨1/2,0,0,0⟩)
      (mkEnv {} 1)).step 0 ⟨1/2,0,0,0⟩) = true := by
  have hp : pyIndex actionSpace 0 = some Action.hezuo := by
    norm_num [pyIndex, actionSpace]
  constructor
  · simp [stepDone, Env.step, hp, stepA_done, mkEnv]
  · simp [stepOk, Env.step, hp]

/-- C2, amended: a `step` call after the episode has terminated (the
step counter has reached `max_steps`; health never reaches 0, see C10)
does not raise an InvalidState error: with a legal action index it
performs another ordinary transition, and the `done` flag it returns
is again `true`. -/
theorem step_after_done_transitions (e : Env) (i : ℤ) (r : StepRand)
    (a : Action) (hi : pyIndex actionSpace i = some a)
    (hdone : e.max_steps ≤ e.current_step) :
    e.step i r = .ok (e.stepA a r) ∧ (e.stepA a r).2.2 = true := by
  constructor
  · simp [Env.step, hi]
  · rw [stepA_done]
    have hd : decide (e.current_step + 1 ≥ e.max_steps) = true := by
      simp only [ge_iff_le, decide_eq_true_eq]
      omega
    rw [hd, Bool.true_or]

/-- C2, witness: the amended theorem applied to a concrete terminated
environment. -/
theorem step_after_done_transitions_witness :
    Env.step { mkEnv {} 1 with current_step := 1 } 0 ⟨1/2,0,0,0⟩
      = .ok (Env.stepA { mkEnv {} 1 with current_step := 1 }
          Action.hezuo ⟨1/2,0,0,0⟩) ∧
    (Env.stepA { mkEnv {} 1 with current_step := 1 }
        Action.hezuo ⟨1/2,0,0,0⟩).2.2 = true :=
  step_after_done_transitions _ 0 ⟨1/2,0,0,0⟩ Action.hezuo
    (by norm_num [pyIndex, actionSpace]) (by decide)

/-! ### C4. -/

/-- C4, counterexample: the action index `-1` is not in
`[0, action_dim)`, yet `step` is not rejected — Python's negative list
indexing resolves it to the last action and the call performs a normal
transition, advancing the step counter. -/
theorem negative_index_accepted_cex :
    stepOk ((mkEnv {} 5).step (-1) ⟨1/2,0,0,0⟩) = true ∧
    (stepEnv ((mkEnv {} 5).step (-1) ⟨1/2,0,0,0⟩)
      (mkEnv {} 5)).current_step = 1 := by
  have hp : pyIndex actionSpace (-1) = some Action.qiangying := by
    norm_num [pyIndex, actionSpace]
    rfl
  constructor
  · simp [stepOk, Env.step, hp]
  · simp [stepEnv, Env.step, hp, stepA_current_step, mkEnv]

/-- C4, amended: an action index `i` with `i ≥ action_dim` or
`i < -action_dim` is rejected (Python `IndexError`, raised by the very
first statement of `step`, before any state is touched — the error
branch of the model carries no successor state); but an index in
`[-action_dim, 0)` is accepted through Python's negative indexing and
performs a normal step. -/
theorem step_out_of_range_rejected (e : Env) (i : ℤ) (r : StepRand) :
    ((i < -10 ∨ 10 ≤ i) → e.step i r = .error .indexError) ∧
    (-10 ≤ i → i < 0 → stepOk (e.step i r) = true) := by
  constructor
  · intro h
    have hlen : ((actionSpace.length : ℕ) : ℤ) = 10 := by
      norm_num [actionSpace]
    have hp : pyIndex actionSpace i = none := by
      simp only [pyIndex]
      rw [hlen]
      rcases h with h | h
      · rw [if_pos (show i < 0 by omega), if_neg (by omega)]
      · rw [if_neg (show ¬ i < 0 by omega), if_neg (by omega)]
    simp [Env.step, hp]
  · intro hlo hhi
    interval_cases i <;>
      simp [Env.step, stepOk, pyIndex, actionSpace]

/-- C4, witness: index 10 is rejected with IndexError; index -3 is
accepted. -/
theorem step_out_of_range_rejected_witness :
    Env.step (mkEnv {} 5) 10 ⟨1/2,0,0,0⟩ = .error .indexError ∧
    stepOk (Env.step (mkEnv {} 5) (-3) ⟨1/2,0,0,0⟩) = true :=
  ⟨(step_out_of_range_rejected (mkEnv {} 5) 10 ⟨1/2,0,0,0⟩).1
      (Or.inr (by norm_num)),
   (step_out_of_range_rejected (mkEnv {} 5) (-3) ⟨1/2,0,0,0⟩).2
      (by norm_num) (by norm_num)⟩

/-! ### C5. -/

/-- C5, counterexample: the variant environments mutate the caller's
profiles — `MirageEnv.step` with action 1 (deceive) changes the
profile's trust, `PvPArenaEnv.step` with action 0 (compromise) changes
the *other* participant's trust, and with action 1 (conflict) the
actor's anger; none of these equals its initial value afterwards. -/
theorem mirage_profile_mutation_cex :
    ((mkMirageEnv {}).step 1).1.profile.trust
      ≠ ({} : MirageProfile).trust ∧
    ((mkPvPArenaEnv {} {}).step 0).1.profile2.trust
      ≠ ({} : MirageProfile).trust ∧
    ((mkPvPArenaEnv {} {}).step 1).1.profile1.emoAnger
      ≠ ({} : MirageProfile).emoAnger := by
  refine ⟨?_, ?_, ?_⟩ <;>
    norm_num [MirageEnv.step, mkMirageEnv, mirageUpdateProfile,
      PvPArenaEnv.step, mkPvPArenaEnv]

/-- C5, amended: the `CharacterEnvironment` engine never mutates the
profile handed to it (unchanged under `reset` and any number of
steps), but the `MirageEnv` and `PvPArenaEnv` variants do mutate the
caller's profile objects on actions 0 and 1 — `MirageEnv` adjusts
trust/reputation/anger, `PvPArenaEnv` adjusts emotion and trust fields
of *both* profiles — and leave them unchanged on every other
action. -/
theorem profile_readonly_amended (e : Env) (tr : List (Action × StepRand))
    (p : MirageProfile) (me : MirageEnv) (pe : PvPArenaEnv) (act : ℕ) :
    (e.runSteps tr).character = e.character ∧
    (e.reset).character = e.character ∧
    mirageUpdateProfile 1 p
      = { p with trust := p.trust - 1/10, emoAnger := p.emoAnger + 1/20 } ∧
    mirageUpdateProfile 0 p
      = { p with trust := p.trust + 1/20,
                 reputation := p.reputation + 1/20 } ∧
    (2 ≤ act → (me.step act).1.profile = me.profile) ∧
    (2 ≤ act → (pe.step act).1.profile1 = pe.profile1
      ∧ (pe.step act).1.profile2 = pe.profile2) ∧
    (pe.turn = 0 →
      (pe.step 1).1.profile1
        = { pe.profile1 with emoAnger := pe.profile1.emoAnger + 1/10 } ∧
      (pe.step 1).1.profile2
        = { pe.profile2 with emoAnger := pe.profile2.emoAnger + 1/20 } ∧
      (pe.step 0).1.profile1
        = { pe.profile1 with emoJoy := pe.profile1.emoJoy + 1/20 } ∧
      (pe.step 0).1.profile2
        = { pe.profile2 with trust := pe.profile2.trust + 3/100 }) ∧
    (pe.turn ≠ 0 →
      (pe.step 1).1.profile2
        = { pe.profile2 with emoAnger := pe.profile2.emoAnger + 1/10 } ∧
      (pe.step 1).1.profile1
        = { pe.profile1 with emoAnger := pe.profile1.emoAnger + 1/20 } ∧
      (pe.step 0).1.profile2
        = { pe.profile2 with emoJoy := pe.profile2.emoJoy + 1/20 } ∧
      (pe.step 0).1.profile1
        = { pe.profile1 with trust := pe.profile1.trust + 3/100 }) := by
  refine ⟨runSteps_character tr e, rfl, by simp [mirageUpdateProfile],
    by simp [mirageUpdateProfile], ?_, ?_, ?_, ?_⟩
  · intro h
    have h1 : act ≠ 1 := by omega
    have h0 : act ≠ 0 := by omega
    simp [MirageEnv.step, mirageUpdateProfile, h0, h1]
  · intro h
    have h1 : act ≠ 1 := by omega
    have h0 : act ≠ 0 := by omega
    by_cases ht : pe.turn = 0 <;> simp [PvPArenaEnv.step, h0, h1, ht]
  · intro ht
    refine ⟨?_, ?_, ?_, ?_⟩ <;> simp [PvPArenaEnv.step, ht]
  · intro ht
    refine ⟨?_, ?_, ?_, ?_⟩ <;> simp [PvPArenaEnv.step, ht]

/-- C5, witness: actions 2 and 3 of the variant environments leave the
profiles untouched, while the PvP compromise and conflict actions
produce exactly the stated trust/anger adjustments, on both sides of
the turn flag. -/
theorem profile_readonly_amended_witness :
    ((mkMirageEnv {}).step 2).1.profile = ({} : MirageProfile) ∧
    ((mkPvPArenaEnv {} {}).step 3).1.profile1 = ({} : MirageProfile) ∧
    ((mkPvPArenaEnv {} {}).step 0).1.profile2
      = { ({} : MirageProfile) with
          trust := ({} : MirageProfile).trust + 3/100 } ∧
    (PvPArenaEnv.step { mkPvPArenaEnv {} {} with turn := 1 } 1).1.profile2
      = { ({} : MirageProfile) with
          emoAnger := ({} : MirageProfile).emoAnger + 1/10 } :=
  ⟨(profile_readonly_amended (mkEnv {} 1) [] {} (mkMirageEnv {})
      (mkPvPArenaEnv {} {}) 2).2.2.2.2.1 (by norm_num),
   ((profile_readonly_amended (mkEnv {} 1) [] {} (mkMirageEnv {})
      (mkPvPArenaEnv {} {}) 3).2.2.2.2.2.1 (by norm_num)).1,
   ((profile_readonly_amended (mkEnv {} 1) [] {} (mkMirageEnv {})
      (mkPvPArenaEnv {} {}) 2).2.2.2.2.2.2.1 rfl).2.2.2,
   ((profile_readonly_amended (mkEnv {} 1) [] {} (mkMirageEnv {})
      { mkPvPArenaEnv {} {} with turn := 1 } 2).2.2.2.2.2.2.2
      (by decide)).1⟩

/-! ### C9. -/

/-- C9: the initial pressures set by `reset` lie in `[0, 1]`, and across
any step transition from a state whose pressures lie in `[0, 1]` (with
the three `random.uniform(-0.1, 0.1)` draws in range), the pressures
stay in `[0, 1]`, threat/opportunity/social each change by at most 0.1,
and time pressure never decreases (it grows by at most 0.05). -/
theorem pressures_bounded_walk (c : CharacterProfile) (e : Env) (a : Action)
    (r : StepRand) (hs : pressuresInRange e.state)
    (h1 : |r.dThreat| ≤ 1/10) (h2 : |r.dOpportunity| ≤ 1/10)
    (h3 : |r.dSocial| ≤ 1/10) :
    pressuresInRange (initState c) ∧
    pressuresInRange (e.stepA a r).1.state ∧
    |(e.stepA a r).1.state.environment.threat_level
      - e.state.environment.threat_level| ≤ 1/10 ∧
    |(e.stepA a r).1.state.environment.opportunity
      - e.state.environment.opportunity| ≤ 1/10 ∧
    |(e.stepA a r).1.state.environment.social_pressure
      - e.state.environment.social_pressure| ≤ 1/10 ∧
    e.state.environment.time_pressure
      ≤ (e.stepA a r).1.state.environment.time_pressure ∧
    (e.stepA a r).1.state.environment.time_pressure
      - e.state.environment.time_pressure ≤ 1/20 := by
  obtain ⟨t0, t1, o0, o1, s0, s1, p0, p1⟩ := hs
  have henv := stepA_state_environment e a r
  rw [updateState_environment] at henv
  refine ⟨by norm_num [pressuresInRange, initState], ?_, ?_, ?_, ?_, ?_, ?_⟩
  · unfold pressuresInRange
    rw [henv]
    dsimp only
    exact ⟨(clamp01_bounds _).1, (clamp01_bounds _).2, (clamp01_bounds _).1,
      (clamp01_bounds _).2, (clamp01_bounds _).1, (clamp01_bounds _).2,
      le_min (by norm_num) (by linarith), min_le_left _ _⟩
  · rw [henv]; dsimp only; exact clamp01_move _ _ t0 t1 h1
  · rw [henv]; dsimp only; exact clamp01_move _ _ o0 o1 h2
  · rw [henv]; dsimp only; exact clamp01_move _ _ s0 s1 h3
  · rw [henv]; dsimp only; exact le_min p1 (by linarith)
  · rw [henv]; dsimp only
    have := min_le_right 1 (e.state.environment.time_pressure + 1/20)
    linarith

/-- C9, witness: the pressure invariant after a concrete step from the
freshly reset environment. -/
theorem pressures_bounded_walk_witness :
    pressuresInRange
      ((mkEnv {} 5).stepA Action.hezuo ⟨1/2, 1/10, 1/20, 0⟩).1.state :=
  (pressures_bounded_walk {} (mkEnv {} 5) Action.hezuo ⟨1/2, 1/10, 1/20, 0⟩
    (by norm_num [pressuresInRange, mkEnv, initState])
    (by norm_num [abs_le]) (by norm_num [abs_le]) (by norm_num [abs_le])).2.1

/-! ### C10. -/

/-- C10: `reset` sets health to 1; every state update floors a health
decrease at 0.1, so after any sequence of steps health stays strictly
positive; consequently the `health <= 0` disjunct of the termination
test is unreachable and a step's `done` flag is true exactly when the
step counter reaches `max_steps`. -/
theorem health_floor_done_only_horizon (e0 : Env)
    (tr : List (Action × StepRand)) (a : Action) (r : StepRand) :
    (e0.reset).state.health = 1 ∧
    0 < ((e0.reset).runSteps tr).state.health ∧
    (((e0.reset).runSteps tr).stepA a r).2.2
      = decide (e0.max_steps ≤ ((e0.reset).runSteps tr).current_step + 1) := by
  have hh : 1/10 ≤ ((e0.reset).runSteps tr).state.health :=
    runSteps_health tr _ (by norm_num [Env.reset, initState])
  refine ⟨rfl, by linarith, ?_⟩
  rw [stepA_done]
  have hh' : 1/10 ≤ (((e0.reset).runSteps tr).stepA a r).1.state.health := by
    rw [stepA_state_health]
    exact updateState_health_ge _ _ _ _ hh
  have hfalse :
      decide ((((e0.reset).runSteps tr).stepA a r).1.state.health ≤ 0)
        = false := by
    simp only [decide_eq_false_iff_not, not_le]
    linarith
  rw [hfalse, Bool.or_false, runSteps_max_steps]
  simp [Env.reset, ge_iff_le]

end HPulse
